import Mathlib

/-!
Verification of the puzzle-generation and breadcrumb-trail algorithm of
`clue.py` (class `MysteryGame`).

The Python script is shallowly embedded as follows.

* The static nested-dict `structure` literal becomes the mutual inductive
  `LocTree`/`LocForest` value `townStructure`; `_get_all_rooms` becomes the
  preorder walk `forestPaths`, and `all_rooms` its result.
* Python strings stay `String`; `str.split("/")` becomes `split_on_slash`
  (splitting on every '/', Python semantics), and Python's code-point
  lexicographic string comparison becomes `str_lt` / `str_le` over `String.data`.
* `generate_mystery` draws from `random.sample` / `random.choice`.  A run of the
  generator is a `Game` record holding every random outcome (the sampled
  subsets, the three answers, the sampled extra red herrings, and the room
  chosen for each distributed entity); `ValidGame` states exactly the
  constraints the random primitives guarantee (sample sizes, distinctness,
  membership in the pools, rooms drawn from the allowed room list).  The
  deterministic parts of `generate_mystery` (clamping, the red-herring quota,
  the distribution pools, the resulting `room_contents`) are Lean functions of
  the record.
* `create_breadcrumbs` / `add_murder_location_to_path` write `clue.txt` files.
  Clue texts are abstracted to the inductive `Clue`, which keeps every
  location name interpolated into the text and the fixed header of each
  template family; a run of the trail builder is the ordered list of
  (path, clue) writes, with `""` standing for the root `game/clue.txt`.
  A later write to the same path overwrites an earlier one (`lastClueAt`).
* Python `round` on a half-integer float rounds half to even; `round_half k`
  is `round(k * 0.5)` for a natural `k`.
-/

/-- Embeds `self.all_people` — the fixed pool of 20 candidate suspects. -/
def all_people : List String :=
  ["The Librarian", "The Shopkeeper", "The Gardener", "The Teacher", "The Mayor", "The Chef",
   "The Postman", "The Baker", "The Police Officer", "The Doctor", "The Artist", "The Musician",
   "The Carpenter", "The Tailor", "The Banker", "The Journalist", "The Florist", "The Clockmaker",
   "The Blacksmith", "The Innkeeper"]

/-- Embeds `self.all_objects` — the fixed pool of 20 candidate weapons. -/
def all_objects : List String :=
  ["Garden Shears", "Kitchen Knife", "Heavy Book", "Bronze Trophy", "Glass Bottle", "Letter Opener",
   "Walking Stick", "Brass Candlestick", "Old Key", "Fountain Pen", "Silver Watch", "Magnifying Glass",
   "Antique Compass", "Paint Brush", "Crystal Vase", "Iron Poker", "Leather Gloves", "Brass Bell",
   "Steel Ruler", "Wooden Box"]

mutual
/-- A named node of the static location hierarchy (one key of the nested dict). -/
inductive LocTree : Type where
  | node : String → LocForest → LocTree
/-- The children of a node, in dict insertion order. -/
inductive LocForest : Type where
  | nil : LocForest
  | cons : LocTree → LocForest → LocForest
end

/-- Build a `LocForest` from a list of trees (dict literal, insertion order). -/
def locForestOf (ts : List LocTree) : LocForest :=
  ts.foldr LocForest.cons LocForest.nil

/-- The `structure` literal of the script: the static town hierarchy. -/
def townStructure : LocForest :=
  locForestOf
    [LocTree.node "town hall" (locForestOf
      [LocTree.node "offices" (locForestOf
        [LocTree.node "records" (locForestOf
          [LocTree.node "archives" (locForestOf [])]),
         LocTree.node "meeting rooms" (locForestOf
          [LocTree.node "council chamber" (locForestOf [])])])]),
     LocTree.node "park" (locForestOf
      [LocTree.node "playground" (locForestOf
        [LocTree.node "sandbox" (locForestOf [])]),
       LocTree.node "pond" (locForestOf
        [LocTree.node "dock" (locForestOf [])]),
       LocTree.node "gazebo" (locForestOf [])]),
     LocTree.node "shops" (locForestOf
      [LocTree.node "bakery" (locForestOf
        [LocTree.node "kitchen" (locForestOf []),
         LocTree.node "storage" (locForestOf [])]),
       LocTree.node "market" (locForestOf
        [LocTree.node "aisles" (locForestOf []),
         LocTree.node "stockroom" (locForestOf [])]),
       LocTree.node "cafe" (locForestOf [])]),
     LocTree.node "houses" (locForestOf
      [LocTree.node "mansion" (locForestOf
        [LocTree.node "library" (locForestOf
          [LocTree.node "study" (locForestOf [])]),
         LocTree.node "garden" (locForestOf
          [LocTree.node "greenhouse" (locForestOf [])])]),
       LocTree.node "cottage" (locForestOf
        [LocTree.node "living room" (locForestOf []),
         LocTree.node "cellar" (locForestOf [])])]),
     LocTree.node "school" (locForestOf
      [LocTree.node "classrooms" (locForestOf
        [LocTree.node "science lab" (locForestOf []),
         LocTree.node "art room" (locForestOf [])]),
       LocTree.node "gymnasium" (locForestOf []),
       LocTree.node "cafeteria" (locForestOf
        [LocTree.node "kitchen" (locForestOf [])])])]

mutual
/-- Embeds `get_paths` of `_get_all_rooms`: preorder walk collecting every
slash-joined path (`new_path` is `current_path + "/" + name` if `current_path` else `name`). -/
def treePaths : LocTree → String → List String
  | LocTree.node name children, current_path =>
      (if current_path = "" then name else current_path ++ "/" ++ name) ::
        forestPaths children (if current_path = "" then name else current_path ++ "/" ++ name)
/-- The walk over a forest of sibling nodes. -/
def forestPaths : LocForest → String → List String
  | LocForest.nil, _ => []
  | LocForest.cons t rest, current_path => treePaths t current_path ++ forestPaths rest current_path
end

/-- Embeds `self.all_rooms = self._get_all_rooms()`. -/
def all_rooms : List String := forestPaths townStructure ""

/-- Code-point lexicographic comparison of char lists (Python string `<`). -/
def strLtList : List Char → List Char → Bool
  | [], [] => false
  | [], _ :: _ => true
  | _ :: _, [] => false
  | a :: as, b :: bs =>
      if a.toNat < b.toNat then true
      else if b.toNat < a.toNat then false
      else strLtList as bs

/-- Python string `<` (strict, code points). -/
def str_lt (a b : String) : Bool := strLtList a.data b.data

/-- Python string `<=`, as used by `list.sort()` on strings. -/
def str_le (a b : String) : Bool := !(str_lt b a)

/-- Python `s.split("/")`: cut at every slash, keeping empty segments. -/
def splitSegs : List Char → List (List Char)
  | [] => [[]]
  | c :: rest =>
    match splitSegs rest with
    | [] => []
    | seg :: segs => if c = '/' then [] :: seg :: segs else (c :: seg) :: segs

/-- Python `s.split("/")` on a `String`. -/
def split_on_slash (s : String) : List String := (splitSegs s.data).map String.mk

/-- Embeds `max(3, min(n, poolLen))` — the silent input clamp of `generate_mystery`. -/
def clampCount (n : Int) (poolLen : Nat) : Int := max 3 (min n (poolLen : Int))

/-- Python `round(k * 0.5)` for a natural `k` (exact halves round to even). -/
def round_half (k : Nat) : Nat :=
  if k % 2 = 0 then k / 2
  else if (k / 2) % 2 = 0 then k / 2 else k / 2 + 1

/-- One run of `generate_mystery`: the record of every random outcome drawn
during the run.  `suspects`/`weapons` are the `random.sample` results,
`extra_people`/`extra_objects` the sampled red herrings, and
`people_rooms`/`object_rooms` the `random.choice` room picked for the
entity at the same index of the corresponding distribution list. -/
structure Game where
  numSuspects : Int
  numWeapons : Int
  suspects : List String
  weapons : List String
  guilty_suspect : String
  murder_weapon : String
  murder_location : String
  extra_people : List String
  extra_objects : List String
  people_rooms : List String
  object_rooms : List String

/-- Embeds `available_suspects = [s for s in self.suspects if s != self.guilty_suspect]`. -/
def available_suspects (g : Game) : List String :=
  g.suspects.filter (fun s => s != g.guilty_suspect)

/-- Embeds `available_weapons = [w for w in self.weapons if w != self.murder_weapon]`. -/
def available_weapons (g : Game) : List String :=
  g.weapons.filter (fun w => w != g.murder_weapon)

/-- Embeds `available_rooms = [r for r in self.all_rooms if r != self.murder_location]`. -/
def available_rooms (g : Game) : List String :=
  all_rooms.filter (fun r => r != g.murder_location)

/-- Embeds `extra_people_count = min(len(available_rooms) - len(available_suspects),
round((20 - num_suspects) * 0.5))`; after sampling, `num_suspects` equals
`len(self.suspects)`.  Python ints: the subtraction is over `Int`. -/
def extra_people_count (g : Game) : Int :=
  min (((available_rooms g).length : Int) - ((available_suspects g).length : Int))
      ((round_half (20 - g.suspects.length) : Nat) : Int)

/-- Embeds `extra_objects_count = min(len(available_rooms) - len(available_weapons),
round((20 - num_weapons) * 0.5))`. -/
def extra_objects_count (g : Game) : Int :=
  min (((available_rooms g).length : Int) - ((available_weapons g).length : Int))
      ((round_half (20 - g.weapons.length) : Nat) : Int)

/-- Embeds `distribution_people = available_suspects + random.sample(non-subset people, extra)`. -/
def distribution_people (g : Game) : List String := available_suspects g ++ g.extra_people

/-- Embeds `distribution_objects = available_weapons + random.sample(non-subset objects, extra)`. -/
def distribution_objects (g : Game) : List String := available_weapons g ++ g.extra_objects

/-- Embeds `self.room_contents[room]["people"]` after the distribution loop: the
people whose chosen room is `room`, in distribution order (append order). -/
def roomPeople (g : Game) (room : String) : List String :=
  ((distribution_people g).zip g.people_rooms).filterMap
    (fun pr => if pr.2 = room then some pr.1 else none)

/-- Embeds `self.room_contents[room]["objects"]` after the distribution loop. -/
def roomObjects (g : Game) (room : String) : List String :=
  ((distribution_objects g).zip g.object_rooms).filterMap
    (fun pr => if pr.2 = room then some pr.1 else none)

/-- The constraints `generate_mystery`'s random primitives guarantee on a run:
sample sizes equal the clamped requests, samples are duplicate-free subsets of
their pools, the answers come from the sampled subsets, the murder location
from the full room list, the extra red herrings avoid the sampled subsets,
each person's room is drawn from `available_rooms` (murder location excluded)
and each object's room from `all_rooms` (murder location included). -/
def ValidGame (g : Game) : Prop :=
  g.suspects.length = (clampCount g.numSuspects all_people.length).toNat ∧
  g.suspects.Nodup ∧ (∀ s ∈ g.suspects, s ∈ all_people) ∧
  g.weapons.length = (clampCount g.numWeapons all_objects.length).toNat ∧
  g.weapons.Nodup ∧ (∀ w ∈ g.weapons, w ∈ all_objects) ∧
  g.guilty_suspect ∈ g.suspects ∧
  g.murder_weapon ∈ g.weapons ∧
  g.murder_location ∈ all_rooms ∧
  g.extra_people.length = (extra_people_count g).toNat ∧
  g.extra_people.Nodup ∧ (∀ p ∈ g.extra_people, p ∈ all_people ∧ p ∉ g.suspects) ∧
  g.extra_objects.length = (extra_objects_count g).toNat ∧
  g.extra_objects.Nodup ∧ (∀ o ∈ g.extra_objects, o ∈ all_objects ∧ o ∉ g.weapons) ∧
  g.people_rooms.length = (distribution_people g).length ∧
  (∀ r ∈ g.people_rooms, r ∈ available_rooms g) ∧
  g.object_rooms.length = (distribution_objects g).length ∧
  (∀ r ∈ g.object_rooms, r ∈ all_rooms)

instance (g : Game) : Decidable (ValidGame g) := by
  unfold ValidGame
  infer_instance

/-- Embeds `check_lateral_path`: equal length, equal parents (`[:-1]`), different
last segments. -/
def check_lateral_path (current_segments next_segments : List String) : Bool :=
  if current_segments.length != next_segments.length then false
  else
    (current_segments.dropLast == next_segments.dropLast) &&
    (current_segments.getLastD "" != next_segments.getLastD "")

/-- The `is_subdirectory` test of the breadcrumb loop: `next` strictly longer
and every segment of `current` matches the corresponding one of `next`. -/
def is_subdirectory (current_segments next_segments : List String) : Bool :=
  decide (current_segments.length < next_segments.length) &&
  (List.range current_segments.length).all
    (fun j => current_segments.getD j "" == next_segments.getD j "")

/-- The relationship between two consecutive important rooms, carrying the
location names interpolated into the hint text: the child segment to descend
into, the sibling's name, or the first and last segments of the target. -/
inductive PathRel where
  | descendant : String → PathRel
  | lateral : String → PathRel
  | upward : String → String → PathRel
deriving DecidableEq

/-- The branch taken by the breadcrumb loop for one consecutive pair:
`is_subdirectory` first (child is `next_segments[len(current_segments)]`),
then `check_lateral_path` (sibling is `next[-1]`),
else `create_upward_clue` (uses `next[0]` and `next[-1]`). -/
def classify_step (current_segments next_segments : List String) : PathRel :=
  if is_subdirectory current_segments next_segments then
    PathRel.descendant (next_segments.getD current_segments.length "")
  else if check_lateral_path current_segments next_segments then
    PathRel.lateral (next_segments.getLastD "")
  else
    PathRel.upward (next_segments.headD "") (next_segments.getLastD "")

/-- A `clue.txt` content, abstracted to its template family and the location
names interpolated into the text.  `finalRevelation` is the fixed
murder-location reveal (no location name appears in any of its ten
variations); `introReport` is the root clue naming the first destination;
`navigation` the per-hop hint. -/
inductive Clue where
  | finalRevelation : Clue
  | introReport : String → Clue
  | navigation : PathRel → Clue
deriving DecidableEq

/-- The fixed first line of each clue template family in the script. -/
def clueHeader : Clue → String
  | Clue.finalRevelation => "Investigation Conclusion:"
  | Clue.introReport _ => "Detective's Initial Report:"
  | Clue.navigation (PathRel.descendant _) => "Investigation Update:"
  | Clue.navigation (PathRel.lateral _) => "Investigation Update:"
  | Clue.navigation (PathRel.upward _ _) => "New Clue:"

/-- The location names a clue's text mentions as a destination to reach. -/
def clue_destinations : Clue → List String
  | Clue.finalRevelation => []
  | Clue.introReport d => [d]
  | Clue.navigation (PathRel.descendant c) => [c]
  | Clue.navigation (PathRel.lateral s) => [s]
  | Clue.navigation (PathRel.upward a b) => [a, b]

/-- The scan-and-sort part of `create_breadcrumbs`: rooms whose contents hold
a member of the sampled suspect subset or of the sampled weapon subset, in
room order, then `important_rooms.sort()` (lexicographic on the path string). -/
def important_rooms (suspects weapons : List String) (people objects : String → List String) :
    List String :=
  List.insertionSort (fun a b => str_le a b = true)
    (all_rooms.filter (fun room_path =>
      ((people room_path).any (fun person => suspects.contains person)) ||
      ((objects room_path).any (fun obj => weapons.contains obj))))

/-- Embeds `add_murder_location_to_path`: returns `important_rooms + [murder_location]`
together with the write of the final revelation clue at the murder location. -/
def add_murder_location_to_path (murder_location : String) (important : List String) :
    List String × List (String × Clue) :=
  (important ++ [murder_location], [(murder_location, Clue.finalRevelation)])

/-- The full important-room sequence `create_breadcrumbs` iterates over. -/
def breadcrumb_rooms (suspects weapons : List String) (murder_location : String)
    (people objects : String → List String) : List String :=
  (add_murder_location_to_path murder_location (important_rooms suspects weapons people objects)).1

/-- Embeds `create_breadcrumbs`, as the ordered list of `clue.txt` writes it performs:
the final revelation at the murder location (inside
`add_murder_location_to_path`), then — unless the updated room list is empty —
the root intro clue (at `""`, standing for `game/clue.txt`) naming the last
segment of the first room, then one navigation clue at the first room of every
consecutive pair. -/
def create_breadcrumbs (suspects weapons : List String) (murder_location : String)
    (people objects : String → List String) : List (String × Clue) :=
  let step1 := add_murder_location_to_path murder_location
    (important_rooms suspects weapons people objects)
  let rooms := step1.1
  if rooms.isEmpty then step1.2
  else
    step1.2 ++
      ("", Clue.introReport ((split_on_slash (rooms.headD "")).getLastD "")) ::
      (rooms.zip rooms.tail).map (fun pr =>
        (pr.1, Clue.navigation (classify_step (split_on_slash pr.1) (split_on_slash pr.2))))

/-- The clue text a path holds after all writes: the last write wins
(`open(..., "w")` truncates). -/
def lastClueAt (writes : List (String × Clue)) (p : String) : Option Clue :=
  (writes.filterMap (fun wc => if wc.1 = p then some wc.2 else none)).getLast?

/-- The clue writes of `create_breadcrumbs` on a generated game. -/
def gameClueWrites (g : Game) : List (String × Clue) :=
  create_breadcrumbs g.suspects g.weapons g.murder_location (roomPeople g) (roomObjects g)

/-- The important-room sequence of `create_breadcrumbs` on a generated game. -/
def gameBreadcrumbRooms (g : Game) : List String :=
  breadcrumb_rooms g.suspects g.weapons g.murder_location (roomPeople g) (roomObjects g)

/-- A concrete run of `generate_mystery(3, 3)`: all people land in `school`,
all objects in `shops/cafe`; the murder location `park` stays empty. -/
def exGame0 : Game where
  numSuspects := 3
  numWeapons := 3
  suspects := ["The Librarian", "The Shopkeeper", "The Gardener"]
  weapons := ["Garden Shears", "Kitchen Knife", "Heavy Book"]
  guilty_suspect := "The Librarian"
  murder_weapon := "Garden Shears"
  murder_location := "park"
  extra_people := ["The Teacher", "The Mayor", "The Chef", "The Postman",
    "The Baker", "The Police Officer", "The Doctor", "The Artist"]
  extra_objects := ["Bronze Trophy", "Glass Bottle", "Letter Opener", "Walking Stick",
    "Brass Candlestick", "Old Key", "Fountain Pen", "Silver Watch"]
  people_rooms := List.replicate 10 "school"
  object_rooms := List.replicate 10 "shops/cafe"

/-- A concrete run of `generate_mystery(3, 3)` in which the weapon
distribution drops sampled weapons into the murder location `park` itself:
all people land in `park/gazebo`, all objects in `park`. -/
def exGame1 : Game where
  numSuspects := 3
  numWeapons := 3
  suspects := ["The Librarian", "The Shopkeeper", "The Gardener"]
  weapons := ["Garden Shears", "Kitchen Knife", "Heavy Book"]
  guilty_suspect := "The Librarian"
  murder_weapon := "Garden Shears"
  murder_location := "park"
  extra_people := ["The Teacher", "The Mayor", "The Chef", "The Postman",
    "The Baker", "The Police Officer", "The Doctor", "The Artist"]
  extra_objects := ["Bronze Trophy", "Glass Bottle", "Letter Opener", "Walking Stick",
    "Brass Candlestick", "Old Key", "Fountain Pen", "Silver Watch"]
  people_rooms := List.replicate 10 "park/gazebo"
  object_rooms := List.replicate 10 "park"

/-- Room contents in which every room is empty (no entity distributed). -/
def noRoomContents : String → List String := fun _ => []

theorem strLtList_irrefl (as : List Char) : strLtList as as = false := by
  induction as with
  | nil => rfl
  | cons a as ih => simp [strLtList, ih]

theorem strLtList_trans : ∀ (as bs cs : List Char),
    strLtList as bs = true → strLtList bs cs = true → strLtList as cs = true
  | [], [], _, h1, _ => absurd h1 (by simp [strLtList])
  | [], _ :: _, [], _, h2 => absurd h2 (by simp [strLtList])
  | [], _ :: _, _ :: _, _, _ => rfl
  | _ :: _, [], _, h1, _ => absurd h1 (by simp [strLtList])
  | _ :: _, _ :: _, [], _, h2 => absurd h2 (by simp [strLtList])
  | a :: as, b :: bs, c :: cs, h1, h2 => by
      simp only [strLtList] at h1 h2 ⊢
      by_cases hab : a.toNat < b.toNat
      · by_cases hcb : c.toNat < b.toNat
        · by_cases hbc : b.toNat < c.toNat
          · rw [if_pos (show a.toNat < c.toNat by omega)]
          · rw [if_neg hbc, if_pos hcb] at h2
            exact absurd h2 (by simp)
        · rw [if_pos (show a.toNat < c.toNat by omega)]
      · by_cases hba : b.toNat < a.toNat
        · rw [if_neg hab, if_pos hba] at h1
          exact absurd h1 (by simp)
        · rw [if_neg hab, if_neg hba] at h1
          by_cases hbc : b.toNat < c.toNat
          · rw [if_pos (show a.toNat < c.toNat by omega)]
          · by_cases hcb : c.toNat < b.toNat
            · rw [if_neg hbc, if_pos hcb] at h2
              exact absurd h2 (by simp)
            · rw [if_neg hbc, if_neg hcb] at h2
              rw [if_neg (show ¬ a.toNat < c.toNat by omega),
                if_neg (show ¬ c.toNat < a.toNat by omega)]
              exact strLtList_trans as bs cs h1 h2

theorem charEqOfValEq {a b : Char} (h : a.toNat = b.toNat) : a = b := by
  apply Char.eq_of_val_eq
  ext : 1
  exact h

theorem strLtList_connex : ∀ (as bs : List Char),
    as ≠ bs → strLtList as bs = true ∨ strLtList bs as = true
  | [], [], h => absurd rfl h
  | [], _ :: _, _ => Or.inl rfl
  | _ :: _, [], _ => Or.inr rfl
  | a :: as, b :: bs, h => by
      rcases lt_trichotomy a.toNat b.toNat with hab | hab | hab
      · exact Or.inl (by simp only [strLtList]; rw [if_pos hab])
      · have hab' : a = b := charEqOfValEq hab
        subst hab'
        have htl : as ≠ bs := fun e => h (e ▸ rfl)
        rcases strLtList_connex as bs htl with h' | h'
        · exact Or.inl (by simp only [strLtList]; rw [if_neg (lt_irrefl a.toNat), if_neg (lt_irrefl a.toNat)]; exact h')
        · exact Or.inr (by simp only [strLtList]; rw [if_neg (lt_irrefl a.toNat), if_neg (lt_irrefl a.toNat)]; exact h')
      · exact Or.inr (by simp only [strLtList]; rw [if_pos hab])

theorem stringDataInj {a b : String} (h : a.data = b.data) : a = b := by
  cases a
  cases b
  simp only at h
  subst h
  rfl

theorem str_lt_irrefl (a : String) : str_lt a a = false := strLtList_irrefl a.data

theorem str_lt_trans {a b c : String} (h1 : str_lt a b = true) (h2 : str_lt b c = true) :
    str_lt a c = true := strLtList_trans a.data b.data c.data h1 h2

theorem str_lt_asymm {a b : String} (h : str_lt a b = true) : str_lt b a = false := by
  cases hba : str_lt b a with
  | false => rfl
  | true => exact absurd (str_lt_trans h hba) (by rw [str_lt_irrefl]; simp)

theorem str_lt_connex {a b : String} (h : a ≠ b) : str_lt a b = true ∨ str_lt b a = true :=
  strLtList_connex a.data b.data (fun e => h (stringDataInj e))

theorem str_lt_of_le_of_ne {a b : String} (hle : str_le a b = true) (hne : a ≠ b) :
    str_lt a b = true := by
  rcases str_lt_connex hne with h | h
  · exact h
  · rw [str_le, h] at hle
    exact absurd hle (by simp)

instance : IsTotal String (fun a b => str_le a b = true) := by
  constructor
  intro a b
  cases hba : str_lt b a with
  | false => exact Or.inl (by rw [str_le, hba]; rfl)
  | true => exact Or.inr (by rw [str_le, str_lt_asymm hba]; rfl)

instance : IsTrans String (fun a b => str_le a b = true) := by
  constructor
  intro a b c h1 h2
  rw [str_le] at h1 h2 ⊢
  cases hca : str_lt c a with
  | false => rfl
  | true =>
    exfalso
    by_cases hbc : b = c
    · subst hbc
      rw [hca] at h1
      exact absurd h1 (by simp)
    · rcases str_lt_connex hbc with h | h
      · rw [str_lt_trans h hca] at h1
        exact absurd h1 (by simp)
      · rw [h] at h2
        exact absurd h2 (by simp)

theorem all_rooms_nodup : all_rooms.Nodup := by decide

theorem fst_mem_dropLast_of_mem_zip_tail {α : Type} :
    ∀ {l : List α} {pr : α × α}, pr ∈ l.zip l.tail → pr.1 ∈ l.dropLast
  | [], _, h => absurd h (by simp)
  | [_], _, h => absurd h (by simp)
  | a :: b :: t, pr, h => by
      rw [List.tail_cons, List.zip_cons_cons] at h
      rcases List.mem_cons.mp h with he | h'
      · rw [he]
        exact List.mem_cons_self a _
      · have hrec := fst_mem_dropLast_of_mem_zip_tail (l := b :: t) (by rw [List.tail_cons]; exact h')
        exact List.mem_cons_of_mem a hrec

theorem length_filter_ne_of_nodup {α : Type} [BEq α] [LawfulBEq α] {l : List α} {a : α}
    (hnd : l.Nodup) (ha : a ∈ l) :
    (List.filter (fun x => x != a) l).length = l.length - 1 := by
  rw [← List.Nodup.erase_eq_filter hnd a, List.length_erase_of_mem ha]

theorem all_rooms_length : all_rooms.length = 36 := rfl

theorem clamp_toNat_bounds {n : Int} {p : Nat} (hp3 : 3 ≤ p) :
    3 ≤ (clampCount n p).toNat ∧ (clampCount n p).toNat ≤ p := by
  have h1 : (3 : Int) ≤ clampCount n p := le_max_left _ _
  have h2 : clampCount n p ≤ (p : Int) :=
    max_le (by exact_mod_cast hp3) (min_le_right _ _)
  omega

theorem valid_suspects_length_bounds {g : Game} (hg : ValidGame g) :
    3 ≤ g.suspects.length ∧ g.suspects.length ≤ 20 := by
  obtain ⟨hslen, -⟩ := hg
  rw [hslen]
  exact clamp_toNat_bounds (by norm_num [all_people])

theorem valid_weapons_length_bounds {g : Game} (hg : ValidGame g) :
    3 ≤ g.weapons.length ∧ g.weapons.length ≤ 20 := by
  obtain ⟨-, -, -, hwlen, -⟩ := hg
  rw [hwlen]
  exact clamp_toNat_bounds (by norm_num [all_objects])

/-- Claim C3: (amended): for every generated game the red-herring quota per
category equals `min(totalLocations - 1 - (n - 1), round((20 - n) * 0.5))`
(Python `round`, half to even) and is never negative; with `numSuspects = 3`
the suspect quota is `round((20 - 3) * 0.5) = 8` — Python rounds 8.5 down to
the even 8 — capped by the number of available rooms. -/
theorem C3_red_herring_quota (g : Game) (hg : ValidGame g) :
    extra_people_count g =
      min ((all_rooms.length : Int) - 1 - ((g.suspects.length : Int) - 1))
        ((round_half (20 - g.suspects.length) : Nat) : Int) ∧
    0 ≤ extra_people_count g ∧
    extra_objects_count g =
      min ((all_rooms.length : Int) - 1 - ((g.weapons.length : Int) - 1))
        ((round_half (20 - g.weapons.length) : Nat) : Int) ∧
    0 ≤ extra_objects_count g ∧
    (g.suspects.length = 3 → extra_people_count g = 8) := by
  have hsb := valid_suspects_length_bounds hg
  have hwb := valid_weapons_length_bounds hg
  obtain ⟨hslen, hsnd, hsmem, hwlen, hwnd, hwmem, hgs, hmw, hml, -⟩ := hg
  have har : (available_rooms g).length = 35 := by
    unfold available_rooms
    rw [length_filter_ne_of_nodup all_rooms_nodup hml, all_rooms_length]
  have has : (available_suspects g).length = g.suspects.length - 1 := by
    unfold available_suspects
    rw [length_filter_ne_of_nodup hsnd hgs]
  have haw : (available_weapons g).length = g.weapons.length - 1 := by
    unfold available_weapons
    rw [length_filter_ne_of_nodup hwnd hmw]
  refine ⟨?_, ?_, ?_, ?_, ?_⟩
  · unfold extra_people_count
    rw [har, has, all_rooms_length]
    congr 1
    omega
  · unfold extra_people_count
    rw [har, has]
    refine le_min (by omega) (Int.natCast_nonneg _)
  · unfold extra_objects_count
    rw [har, haw, all_rooms_length]
    congr 1
    omega
  · unfold extra_objects_count
    rw [har, haw]
    refine le_min (by omega) (Int.natCast_nonneg _)
  · intro h3
    unfold extra_people_count
    rw [har, has, h3]
    norm_num [round_half]

/-- Claim C3: counterexample to the claim as stated: in a valid
`generate_mystery(3, 3)` run the suspect quota is 8, not the claimed
`round((20 - 3) * 0.5) = 9` (Python `round(8.5)` is 8). -/
theorem C3_quota_not_nine :
    ValidGame exGame0 ∧ exGame0.suspects.length = 3 ∧
    extra_people_count exGame0 = 8 ∧ extra_people_count exGame0 ≠ 9 := by
  refine ⟨by decide, rfl, by decide, by decide⟩

/-- Witness for C3: the amended statement holds at the concrete valid run
`exGame0` with three suspects and three weapons. -/
theorem C3_red_herring_quota_witness :
    extra_people_count exGame0 =
      min ((all_rooms.length : Int) - 1 - ((exGame0.suspects.length : Int) - 1))
        ((round_half (20 - exGame0.suspects.length) : Nat) : Int) ∧
    0 ≤ extra_people_count exGame0 ∧
    extra_objects_count exGame0 =
      min ((all_rooms.length : Int) - 1 - ((exGame0.weapons.length : Int) - 1))
        ((round_half (20 - exGame0.weapons.length) : Nat) : Int) ∧
    0 ≤ extra_objects_count exGame0 ∧
    (exGame0.suspects.length = 3 → extra_people_count exGame0 = 8) :=
  C3_red_herring_quota exGame0 (by decide)

/-- Claim C4:: in every generated game the suspect distribution draws rooms from
`available_rooms`, which excludes the murder location, so the murder
location's present-suspect list is empty after distribution. -/
theorem C4_murder_location_has_no_suspects (g : Game) (hg : ValidGame g) :
    roomPeople g g.murder_location = [] := by
  obtain ⟨-, -, -, -, -, -, -, -, -, -, -, -, -, -, -, -, hprmem, -, -⟩ := hg
  unfold roomPeople
  rw [List.filterMap_eq_nil_iff]
  intro pr hpr
  have hmem : pr.2 ∈ available_rooms g := hprmem pr.2 (List.of_mem_zip hpr).2
  have hne : pr.2 ≠ g.murder_location := by
    have := (List.mem_filter.mp hmem).2
    simpa using this
  simp only [if_neg hne]

/-- Witness for C4 at the concrete valid run `exGame0`. -/
theorem C4_murder_location_has_no_suspects_witness :
    roomPeople exGame0 exGame0.murder_location = [] :=
  C4_murder_location_has_no_suspects exGame0 (by decide)

/-- Claim C10:: the guilty suspect and the murder weapon are filtered out of the
distribution pools, so they are placed in no room at all. -/
theorem C10_answers_never_distributed (g : Game) (hg : ValidGame g) :
    ∀ room : String,
      g.guilty_suspect ∉ roomPeople g room ∧ g.murder_weapon ∉ roomObjects g room := by
  obtain ⟨-, -, -, -, -, -, hgs, hmw, -, -, -, hepmem, -, -, heomem, -, -, -, -⟩ := hg
  intro room
  constructor
  · intro hmem
    unfold roomPeople at hmem
    rw [List.mem_filterMap] at hmem
    obtain ⟨pr, hpr, hf⟩ := hmem
    have hp1 : pr.1 ∈ distribution_people g := (List.of_mem_zip hpr).1
    have hp1g : pr.1 = g.guilty_suspect := by
      by_cases hc : pr.2 = room
      · rw [if_pos hc] at hf
        exact Option.some.inj hf
      · rw [if_neg hc] at hf
        exact absurd hf (by simp)
    rcases List.mem_append.mp hp1 with h | h
    · have := (List.mem_filter.mp h).2
      rw [hp1g] at this
      simp at this
    · exact absurd (hp1g ▸ hgs) (hepmem pr.1 h).2
  · intro hmem
    unfold roomObjects at hmem
    rw [List.mem_filterMap] at hmem
    obtain ⟨pr, hpr, hf⟩ := hmem
    have hp1 : pr.1 ∈ distribution_objects g := (List.of_mem_zip hpr).1
    have hp1g : pr.1 = g.murder_weapon := by
      by_cases hc : pr.2 = room
      · rw [if_pos hc] at hf
        exact Option.some.inj hf
      · rw [if_neg hc] at hf
        exact absurd hf (by simp)
    rcases List.mem_append.mp hp1 with h | h
    · have := (List.mem_filter.mp h).2
      rw [hp1g] at this
      simp at this
    · exact absurd (hp1g ▸ hmw) (heomem pr.1 h).2

/-- Witness for C10 at the concrete valid run `exGame0`, sampled at the room
`park` (the murder location) and at `school` (a populated room). -/
theorem C10_answers_never_distributed_witness :
    (exGame0.guilty_suspect ∉ roomPeople exGame0 "park" ∧
      exGame0.murder_weapon ∉ roomObjects exGame0 "park") ∧
    (exGame0.guilty_suspect ∉ roomPeople exGame0 "school" ∧
      exGame0.murder_weapon ∉ roomObjects exGame0 "school") :=
  ⟨C10_answers_never_distributed exGame0 (by decide) "park",
   C10_answers_never_distributed exGame0 (by decide) "school"⟩

/-- Claim C7:: `generate_mystery` clamps both requested counts silently (the
clamp is a total function, no error path) into `[3, poolSize]`, and in every
valid run the sampled subsets have exactly the clamped sizes and are
duplicate-free sublists of the candidate pools. -/
theorem C7_silent_clamp (ns nw : Int) (g : Game) (hg : ValidGame g) :
    (3 ≤ clampCount ns all_people.length ∧
      clampCount ns all_people.length ≤ (all_people.length : Int)) ∧
    (3 ≤ clampCount nw all_objects.length ∧
      clampCount nw all_objects.length ≤ (all_objects.length : Int)) ∧
    g.suspects.length = (clampCount g.numSuspects all_people.length).toNat ∧
    g.suspects.Nodup ∧ (∀ s ∈ g.suspects, s ∈ all_people) ∧
    g.weapons.length = (clampCount g.numWeapons all_objects.length).toNat ∧
    g.weapons.Nodup ∧ (∀ w ∈ g.weapons, w ∈ all_objects) := by
  obtain ⟨hslen, hsnd, hsmem, hwlen, hwnd, hwmem, -⟩ := hg
  refine ⟨⟨le_max_left _ _, max_le (by norm_num [all_people]) (min_le_right _ _)⟩,
    ⟨le_max_left _ _, max_le (by norm_num [all_objects]) (min_le_right _ _)⟩,
    hslen, hsnd, hsmem, hwlen, hwnd, hwmem⟩

/-- Witness for C7: out-of-range requests (−100 and 1000) clamp into range,
and the valid run `exGame0` has the clamped sample sizes. -/
theorem C7_silent_clamp_witness :
    (3 ≤ clampCount (-100) all_people.length ∧
      clampCount (-100) all_people.length ≤ (all_people.length : Int)) ∧
    (3 ≤ clampCount 1000 all_objects.length ∧
      clampCount 1000 all_objects.length ≤ (all_objects.length : Int)) ∧
    exGame0.suspects.length = (clampCount exGame0.numSuspects all_people.length).toNat ∧
    exGame0.suspects.Nodup ∧ (∀ s ∈ exGame0.suspects, s ∈ all_people) ∧
    exGame0.weapons.length = (clampCount exGame0.numWeapons all_objects.length).toNat ∧
    exGame0.weapons.Nodup ∧ (∀ w ∈ exGame0.weapons, w ∈ all_objects) :=
  C7_silent_clamp (-100) 1000 exGame0 (by decide)

/-- Claim C2:: for every game the sequence `create_breadcrumbs` iterates over is
the sorted duplicate-free list of important rooms followed by the murder
location: every entry except the final one is strictly ascending by path
string, and the final entry is exactly the murder location. -/
theorem C2_important_sequence (g : Game) :
    (gameBreadcrumbRooms g).dropLast.Pairwise (fun a b => str_lt a b = true) ∧
    (gameBreadcrumbRooms g).getLast? = some g.murder_location := by
  simp only [gameBreadcrumbRooms, breadcrumb_rooms, add_murder_location_to_path]
  constructor
  · rw [List.dropLast_concat]
    unfold important_rooms
    refine List.Pairwise.imp₂ (fun a b hle hne => str_lt_of_le_of_ne hle hne)
      (List.sorted_insertionSort _ _) ?_
    exact ((List.perm_insertionSort _ _).nodup_iff).mpr (List.Nodup.filter _ all_rooms_nodup)
  · rw [List.getLast?_concat]

/-- Claim C8:: two distinct paths under the same immediate parent are classified
as a lateral move (never as descendant or upward), the hint naming the
sibling's last segment. -/
theorem C8_siblings_classify_lateral (parent : List String) (a b : String) (hab : a ≠ b) :
    classify_step (parent ++ [a]) (parent ++ [b]) = PathRel.lateral b := by
  have hsub : is_subdirectory (parent ++ [a]) (parent ++ [b]) = false := by
    simp [is_subdirectory]
  have hlat : check_lateral_path (parent ++ [a]) (parent ++ [b]) = true := by
    simp [check_lateral_path, List.dropLast_concat, List.getLastD_concat, hab]
  simp [classify_step, hsub, hlat, List.getLastD_concat]

/-- Witness for C8 at the concrete sibling rooms `park/gazebo` and
`park/pond`. -/
theorem C8_siblings_classify_lateral_witness :
    classify_step ["park", "gazebo"] ["park", "pond"] = PathRel.lateral "pond" :=
  C8_siblings_classify_lateral ["park"] "gazebo" "pond" (by decide)

/-- Claim C9:: for a path and any strict descendant of it (strictly longer, with
the length-`len(current)` prefix equal to `current`), classification returns
descendant, and the hinted child is the segment right after the shared
prefix. -/
theorem C9_descendant_classify (current_segments next_segments : List String)
    (hlen : current_segments.length < next_segments.length)
    (hpre : next_segments.take current_segments.length = current_segments) :
    classify_step current_segments next_segments =
      PathRel.descendant (next_segments.getD current_segments.length "") := by
  have hsub : is_subdirectory current_segments next_segments = true := by
    unfold is_subdirectory
    rw [Bool.and_eq_true]
    refine ⟨decide_eq_true hlen, ?_⟩
    rw [List.all_eq_true]
    intro j hj
    have hjlt : j < current_segments.length := List.mem_range.mp hj
    rw [beq_iff_eq, List.getD_eq_getElem?_getD, List.getD_eq_getElem?_getD]
    conv_lhs => rw [← hpre]
    rw [List.getElem?_take, if_pos hjlt]
  simp [classify_step, hsub]

/-- Witness for C9 at the concrete pair `park` and `park/pond/dock`. -/
theorem C9_descendant_classify_witness :
    classify_step ["park"] ["park", "pond", "dock"] = PathRel.descendant "pond" :=
  C9_descendant_classify ["park"] ["park", "pond", "dock"] (by decide) (by decide)

/-- Claim C5:: weapons are distributed over the full room list including the
murder location, and some valid run indeed leaves the murder location's
object list non-empty. -/
theorem C5_weapon_lands_in_murder_location :
    ∃ g : Game, ValidGame g ∧ roomObjects g g.murder_location ≠ [] :=
  ⟨exGame1, by decide, by decide⟩

/-- Claim C6: (amended): when no room is important the consecutive-pair hint
loop runs zero times — no navigational hint is written and no error occurs —
and the trail degenerates to just the murder location; however the code still
writes the root introductory clue, pointing at the murder location's last
segment, because the emptiness check runs only after the murder location has
been appended. -/
theorem C6_degenerate_trail (suspects weapons : List String) (murder_location : String)
    (people objects : String → List String)
    (h : important_rooms suspects weapons people objects = []) :
    breadcrumb_rooms suspects weapons murder_location people objects = [murder_location] ∧
    create_breadcrumbs suspects weapons murder_location people objects =
      [(murder_location, Clue.finalRevelation),
       ("", Clue.introReport ((split_on_slash murder_location).getLastD ""))] := by
  constructor
  · simp [breadcrumb_rooms, add_murder_location_to_path, h]
  · simp [create_breadcrumbs, add_murder_location_to_path, h]

/-- Claim C6: counterexample to the claim as stated: with every room's contents
empty no room is important, yet the root introductory hint *is* written (the
claim says it never is). -/
theorem C6_root_hint_still_written :
    important_rooms exGame0.suspects exGame0.weapons noRoomContents noRoomContents = [] ∧
    ("", Clue.introReport "park") ∈
      create_breadcrumbs exGame0.suspects exGame0.weapons "park" noRoomContents noRoomContents := by
  refine ⟨by decide, by decide⟩

/-- Witness for C6 at empty room contents and murder location `park`. -/
theorem C6_degenerate_trail_witness :
    breadcrumb_rooms exGame0.suspects exGame0.weapons "park" noRoomContents noRoomContents =
      ["park"] ∧
    create_breadcrumbs exGame0.suspects exGame0.weapons "park" noRoomContents noRoomContents =
      [("park", Clue.finalRevelation),
       ("", Clue.introReport ((split_on_slash "park").getLastD ""))] :=
  C6_degenerate_trail _ _ _ _ _ (by decide)

theorem lastClueAt_head_of_rest_ne (p : String) (c : Clue) (rest : List (String × Clue))
    (h : ∀ wc ∈ rest, wc.1 ≠ p) :
    lastClueAt ((p, c) :: rest) p = some c := by
  unfold lastClueAt
  have hrest : List.filterMap (fun wc => if wc.1 = p then some wc.2 else none) rest = [] :=
    List.filterMap_eq_nil_iff.mpr (fun wc hwc => by simp [h wc hwc])
  rw [List.filterMap_cons_some (b := c) (by simp), hrest]
  rfl

/-- Claim C1: (amended): whenever the murder location is not itself one of the
important rooms, the clue left there is the fixed final revelation: it names
no further destination, opens with the conclusion header, and is distinct
from every navigational hint.  (When the murder location *is* important — a
sampled weapon landed there — the pair loop later overwrites the revelation;
see the counterexample.) -/
theorem C1_final_revelation_kept (g : Game) (hg : ValidGame g)
    (h : g.murder_location ∉
      important_rooms g.suspects g.weapons (roomPeople g) (roomObjects g)) :
    lastClueAt (gameClueWrites g) g.murder_location = some Clue.finalRevelation ∧
    clue_destinations Clue.finalRevelation = [] ∧
    clueHeader Clue.finalRevelation = "Investigation Conclusion:" ∧
    (∀ rel : PathRel, Clue.finalRevelation ≠ Clue.navigation rel) := by
  obtain ⟨-, -, -, -, -, -, -, -, hml, -⟩ := hg
  have hne : g.murder_location ≠ "" := by
    intro e
    rw [e] at hml
    exact absurd hml (by decide)
  refine ⟨?_, rfl, rfl, fun rel h' => Clue.noConfusion h'⟩
  simp only [gameClueWrites, create_breadcrumbs, add_murder_location_to_path]
  rw [if_neg (by simp :
    ¬ ((important_rooms g.suspects g.weapons (roomPeople g) (roomObjects g)) ++
      [g.murder_location]).isEmpty = true)]
  rw [List.singleton_append]
  refine lastClueAt_head_of_rest_ne _ _ _ ?_
  intro wc hwc
  rcases List.mem_cons.mp hwc with he | hwc'
  · rw [he]
    exact Ne.symm hne
  · obtain ⟨pr, hpr, rfl⟩ := List.mem_map.mp hwc'
    have hfst := fst_mem_dropLast_of_mem_zip_tail hpr
    rw [List.dropLast_concat] at hfst
    exact fun e => h (e ▸ hfst)

/-- Claim C1: counterexample to the claim as stated: in the valid run `exGame1`
a sampled weapon lies in the murder location, which therefore appears among
the important rooms, and the clue finally stored at the murder location is a
navigational hint, not the final revelation. -/
theorem C1_revelation_overwritten :
    ValidGame exGame1 ∧
    exGame1.murder_location ∈
      important_rooms exGame1.suspects exGame1.weapons (roomPeople exGame1) (roomObjects exGame1) ∧
    lastClueAt (gameClueWrites exGame1) exGame1.murder_location ≠ some Clue.finalRevelation := by
  refine ⟨by decide, by decide, by decide⟩

/-- Witness for C1 at the concrete valid run `exGame0`, whose murder location
holds no sampled entity. -/
theorem C1_final_revelation_kept_witness :
    lastClueAt (gameClueWrites exGame0) exGame0.murder_location = some Clue.finalRevelation ∧
    clue_destinations Clue.finalRevelation = [] ∧
    clueHeader Clue.finalRevelation = "Investigation Conclusion:" ∧
    (∀ rel : PathRel, Clue.finalRevelation ≠ Clue.navigation rel) :=
  C1_final_revelation_kept exGame0 (by decide) (by decide)
